import Mathlib

/-!
Shallow embedding of `src/beamerhierarchy/color.py` (BeamerHierarchy).

Conventions of the embedding:
* Python floats are modelled as exact rationals (ℚ).  Every numeric value
  reached by the verified claims is exactly representable, and the only
  discretization point, `round(255 * c)` inside matplotlib `to_hex`, is
  modelled with round-half-to-even (`rnd`), matching Python `round` and
  `numpy.round`.
* The matplotlib color primitives `to_rgba`, `to_rgb` and `to_hex` are
  embedded for the input forms the program feeds them: 6- and 8-digit hex
  strings (upper or lower case digits), the four color names used by the
  static catalog, and rgb / rgba tuples.  `to_rgba` validates tuple
  channels to lie in [0, 1] (matplotlib raises ValueError otherwise),
  modelled by `Option`.  Named-color lookup and hex parsing are mutually
  exclusive in matplotlib (no color name starts with a hash sign), so the
  embedding dispatches on the leading hash character.  The 3- and 4-digit
  shorthand hex forms, never produced nor consumed by this program, are
  omitted.
* `hashlib.md5(...).hexdigest()` is an external primitive used only to
  build node ids; no claim depends on the value of an id, so it is
  modelled by the identity function on names.
* Python exceptions (ValueError, KeyError, RuntimeError, a missing tuple
  element) are modelled by `Option.none`.
-/

namespace BeamerHierarchy

/-- Round half to even on rationals: the semantics of Python `round` and
`numpy.round` applied to the value `255 * channel` in matplotlib `to_hex`. -/
def rnd (q : ℚ) : ℤ :=
  if q - ⌊q⌋ < 1 / 2 then ⌊q⌋
  else if 1 / 2 < q - ⌊q⌋ then ⌊q⌋ + 1
  else if ⌊q⌋ % 2 = 0 then ⌊q⌋ else ⌊q⌋ + 1

/-- An RGBA quadruple as returned by matplotlib `to_rgba`: four channels,
each a rational in [0, 1]. -/
structure Rgba where
  r : ℚ
  g : ℚ
  b : ℚ
  a : ℚ
  deriving DecidableEq

/-- A color argument as accepted by the matplotlib converters: a string
(color name or hex), or a 3- or 4-tuple of channel values. -/
inductive ColorSpec where
  | str (s : String)
  | rgb (r g b : ℚ)
  | rgba (r g b a : ℚ)
  deriving DecidableEq

/-- Lower-case hex digit of a value below 16 (48 is the code of the digit
zero, 97 the code of the letter a), as produced by Python `format(_, "02x")`. -/
def hexDigitChar (n : ℕ) : Char :=
  if n < 10 then Char.ofNat (48 + n) else Char.ofNat (87 + n)

/-- The two lower-case hex digits of a byte, as produced by
`format(byte, "02x")` for byte values below 256 (all values reaching this
point are below 256 because `to_rgba` validated the channels). -/
def byteHexChars (n : ℕ) : List Char :=
  [hexDigitChar (n / 16 % 16), hexDigitChar (n % 16)]

/-- The 8-digit hex string of four channel bytes, hash sign included. -/
def mkHex8 (r g b a : ℕ) : String :=
  String.mk ('#' :: (byteHexChars r ++ byteHexChars g ++ byteHexChars b ++ byteHexChars a))

/-- The 6-digit hex string of three channel bytes, hash sign included. -/
def mkHex6 (r g b : ℕ) : String :=
  String.mk ('#' :: (byteHexChars r ++ byteHexChars g ++ byteHexChars b))

/-- Value of one hex digit, upper or lower case (codes 48-57 are the
decimal digits, 97-102 the lower-case letters a-f, 65-70 the upper-case
letters A-F). -/
def hexDigitVal (c : Char) : Option ℕ :=
  if 48 ≤ c.toNat ∧ c.toNat ≤ 57 then some (c.toNat - 48)
  else if 97 ≤ c.toNat ∧ c.toNat ≤ 102 then some (c.toNat - 87)
  else if 65 ≤ c.toNat ∧ c.toNat ≤ 70 then some (c.toNat - 55)
  else none

/-- Value of a two-digit hex pair. -/
def hexPairVal (c1 c2 : Char) : Option ℕ := do
  let hi ← hexDigitVal c1
  let lo ← hexDigitVal c2
  pure (16 * hi + lo)

/-- Parse the digits after the hash sign of a hex color: 6 digits give an
opaque color (alpha one), 8 digits carry an explicit alpha. -/
def parseHexDigits : List Char → Option Rgba
  | [r1, r2, g1, g2, b1, b2] => do
    let r ← hexPairVal r1 r2
    let g ← hexPairVal g1 g2
    let b ← hexPairVal b1 b2
    pure ⟨(r : ℚ) / 255, (g : ℚ) / 255, (b : ℚ) / 255, 1⟩
  | [r1, r2, g1, g2, b1, b2, a1, a2] => do
    let r ← hexPairVal r1 r2
    let g ← hexPairVal g1 g2
    let b ← hexPairVal b1 b2
    let a ← hexPairVal a1 a2
    pure ⟨(r : ℚ) / 255, (g : ℚ) / 255, (b : ℚ) / 255, (a : ℚ) / 255⟩
  | _ => none

/-- The named colors the program uses ("green" is the CSS green, half
intensity). -/
def namedColor (s : String) : Option Rgba :=
  if s = "black" then some ⟨0, 0, 0, 1⟩
  else if s = "white" then some ⟨1, 1, 1, 1⟩
  else if s = "red" then some ⟨1, 0, 0, 1⟩
  else if s = "green" then some ⟨0, 128 / 255, 0, 1⟩
  else none

/-- matplotlib `ColorConverter().to_rgba`: parse a color specification into
an RGBA quadruple; tuple inputs are validated to lie in [0, 1]. -/
def to_rgba : ColorSpec → Option Rgba
  | ColorSpec.str s =>
    match s.data with
    | '#' :: ds => parseHexDigits ds
    | _ => namedColor s
  | ColorSpec.rgb r g b =>
    if 0 ≤ r ∧ r ≤ 1 ∧ 0 ≤ g ∧ g ≤ 1 ∧ 0 ≤ b ∧ b ≤ 1 then some ⟨r, g, b, 1⟩ else none
  | ColorSpec.rgba r g b a =>
    if 0 ≤ r ∧ r ≤ 1 ∧ 0 ≤ g ∧ g ≤ 1 ∧ 0 ≤ b ∧ b ≤ 1 ∧ 0 ≤ a ∧ a ≤ 1 then some ⟨r, g, b, a⟩
    else none

/-- Serialization step of matplotlib `to_hex` on an already validated RGBA
quadruple: hash sign, then one byte per channel, the alpha byte only when
`keepAlpha` is set. -/
def fmtRgba (q : Rgba) (keepAlpha : Bool) : String :=
  String.mk ('#' :: (byteHexChars (rnd (255 * q.r)).toNat ++ byteHexChars (rnd (255 * q.g)).toNat ++
    byteHexChars (rnd (255 * q.b)).toNat ++
    if keepAlpha then byteHexChars (rnd (255 * q.a)).toNat else []))

/-- matplotlib `to_hex(c, keep_alpha)`: convert through `to_rgba`, then
serialize. -/
def to_hex (c : ColorSpec) (keepAlpha : Bool) : Option String :=
  (to_rgba c).map (fun q => fmtRgba q keepAlpha)

/-- One channel of `Color.invert_color`: the Python expression
`((255 - int(255 * channel)) % 256) / 255`.  `int` truncates toward zero,
which on the nonnegative channels is the floor. -/
def invByte (c : ℚ) : ℚ := (((255 - ⌊255 * c⌋) % 256 : ℤ) : ℚ) / 255

/-- `Color.invert_color`: invert every channel of the parsed RGBA value,
the alpha included, then serialize WITHOUT the alpha byte (the source
calls `colors.to_hex(inverted)` with the default `keep_alpha=False`). -/
def invert_color (c : ColorSpec) : Option String :=
  (to_rgba c).bind
    (fun q => to_hex (ColorSpec.rgba (invByte q.r) (invByte q.g) (invByte q.b) (invByte q.a)) false)

/-- `hashlib.md5(name.encode()).hexdigest()`, modelled by the identity on
the name: no claim depends on the value of a node id, only on how many
edge references are recorded. -/
def md5Hex (s : String) : String := s

/-- `RawColor`: a node (name, id, inheritance lists from `Node.__init__`)
holding one color and the font color used to label it. -/
structure RawColor where
  name : String
  id : String
  color : String
  fontcolor : String
  parents_both : List String
  parents_fg : List String
  parents_bg : List String
  deriving DecidableEq

/-- `RawColor.__init__` (through `Node.__init__`): default color and font
color, empty inheritance lists. -/
def mkRawColor (name : String) : RawColor :=
  ⟨name, md5Hex name, "#FFFFFFFF", "#000000FF", [], [], []⟩

/-- `RawColor.set_color`: store the canonical 8-digit hex of the given
color and recompute the font color as its inverse. -/
def RawColor.set_color (rc : RawColor) (c : ColorSpec) : Option RawColor :=
  (to_hex c true).bind fun hex =>
    (invert_color (ColorSpec.str hex)).map fun inv =>
      { rc with color := hex, fontcolor := inv }

/-- `RawColor.get`: the channel argument is ignored, the one stored color
is always returned. -/
def RawColor.get (rc : RawColor) (_channel : String) : String := rc.color

/-- `BeamerColor`: a derived node with foreground and background channels,
their cached inverses, and the recorded inheritance edges. -/
structure BeamerColor where
  name : String
  id : String
  fg : String
  inverted_fg : String
  bg : String
  inverted_bg : String
  parents_both : List String
  parents_fg : List String
  parents_bg : List String
  deriving DecidableEq

/-- `BeamerColor.__init__` (through `Node.__init__`): default channel
values and inverses, empty inheritance lists. -/
def mkBeamerColor (name : String) : BeamerColor :=
  ⟨name, md5Hex name, "#FFFFFF00", "#000000FF", "#00000000", "#000000FF", [], [], []⟩

/-- `BeamerColor.get`: foreground for "fg", background for "bg", a
RuntimeError (modelled `none`) for anything else. -/
def BeamerColor.get (bc : BeamerColor) (channel : String) : Option String :=
  if channel = "fg" then some bc.fg
  else if channel = "bg" then some bc.bg
  else none

/-- A color node is either raw or derived. -/
inductive ColorNode where
  | raw (rc : RawColor)
  | beamer (bc : BeamerColor)
  deriving DecidableEq

/-- Dynamic dispatch of `get` over the node kind. -/
def ColorNode.get : ColorNode → String → Option String
  | ColorNode.raw rc, channel => some (rc.get channel)
  | ColorNode.beamer bc, channel => bc.get channel

/-- The id of a node of either kind. -/
def ColorNode.nodeId : ColorNode → String
  | ColorNode.raw rc => rc.id
  | ColorNode.beamer bc => bc.id

/-- One source entry of `_blend` and `inherit`: the Python tuple
`(color, ground, percent)`; the percent entry is absent on direct-copy
tuples, and reading an absent percent in the weighted path is an
IndexError (modelled `none`). -/
abbrev BlendSpec := ColorNode × String × Option ℚ

/-- One iteration of the accumulation loop of `Color._blend`: read the
source channel, parse it, and add `channel * percent / 100` to each
accumulated channel. -/
def blendStep (acc : ℚ × ℚ × ℚ) (spec : BlendSpec) : Option (ℚ × ℚ × ℚ) :=
  (ColorNode.get spec.1 spec.2.1).bind fun s =>
    (to_rgba (ColorSpec.str s)).bind fun q =>
      spec.2.2.map fun w =>
        (acc.1 + q.r * w / 100, acc.2.1 + q.g * w / 100, acc.2.2 + q.b * w / 100)

/-- `Color._blend`: a single source is a direct copy of `get` (any weight
entry is ignored); two or more sources are accumulated channelwise with
weight `percent / 100`, the alpha is taken from the first source, and the
result is serialized through `to_hex(..., True)` (whose range validation
models the ValueError on channels outside [0, 1]).  The Python branch for
a single argument that is itself a list cannot be produced by this
program and is omitted. -/
def _blend (specs : List BlendSpec) : Option String :=
  match specs with
  | [] => none
  | [spec] => ColorNode.get spec.1 spec.2.1
  | spec0 :: _ =>
    (specs.foldlM blendStep ((0 : ℚ), (0 : ℚ), (0 : ℚ))).bind fun rgb =>
      (ColorNode.get spec0.1 spec0.2.1).bind fun s0 =>
        (to_rgba (ColorSpec.str s0)).bind fun q0 =>
          to_hex (ColorSpec.rgba rgb.1 rgb.2.1 rgb.2.2 q0.a) true

/-- `BeamerColor._set_fg`: canonicalize the given color to 8-digit hex,
store it as the foreground, recompute the cached inverse. -/
def BeamerColor._set_fg (bc : BeamerColor) (f : String) : Option BeamerColor :=
  (to_hex (ColorSpec.str f) true).bind fun hex =>
    (invert_color (ColorSpec.str hex)).map fun inv =>
      { bc with fg := hex, inverted_fg := inv }

/-- `BeamerColor._set_bg`: canonicalize the given color to 8-digit hex,
store it as the background, recompute the cached inverse. -/
def BeamerColor._set_bg (bc : BeamerColor) (f : String) : Option BeamerColor :=
  (to_hex (ColorSpec.str f) true).bind fun hex =>
    (invert_color (ColorSpec.str hex)).map fun inv =>
      { bc with bg := hex, inverted_bg := inv }

/-- `BeamerColor.set_parent`: record one full-identity edge, then copy the
foreground and the background of the parent (re-serialized to canonical
hex, inverses recomputed).  Returns the updated node (Python returns
`self`). -/
def BeamerColor.set_parent (bc parent : BeamerColor) : Option BeamerColor :=
  (({ bc with parents_both := bc.parents_both ++ [parent.id] })._set_fg parent.fg).bind
    fun bc2 => bc2._set_bg parent.bg

/-- The source-port tag of one edge: "fgout" / "bgout" for channel
sources, "color" for everything else (raw-color sources). -/
def groundFrom (ground : String) : String :=
  if ground = "fg" ∨ ground = "bg" then ground ++ "out" else "color"

/-- The recorded edge reference string `"<id>":<port>` of one source. -/
def edgeRef (spec : BlendSpec) : String :=
  "\"" ++ ColorNode.nodeId spec.1 ++ "\":" ++ groundFrom spec.2.1

/-- `self.parents[key].append(e)`: the dict has exactly the keys "both",
"fg" and "bg"; any other key is a KeyError (modelled `none`). -/
def BeamerColor.appendParent (bc : BeamerColor) (key e : String) : Option BeamerColor :=
  if key = "both" then some { bc with parents_both := bc.parents_both ++ [e] }
  else if key = "fg" then some { bc with parents_fg := bc.parents_fg ++ [e] }
  else if key = "bg" then some { bc with parents_bg := bc.parents_bg ++ [e] }
  else none

/-- `self.parents[key]` as a read: the edge list recorded under one key. -/
def BeamerColor.parentsOf (bc : BeamerColor) (key : String) : Option (List String) :=
  if key = "both" then some bc.parents_both
  else if key = "fg" then some bc.parents_fg
  else if key = "bg" then some bc.parents_bg
  else none

/-- `BeamerColor.inherit`: blend the sources, record one edge per source
under `ground_to`, then assign the blended value to the foreground when
`ground_to` is "fg", to the background when it is "bg", and to nothing at
all otherwise.  Returns the updated node (Python returns `self`). -/
def BeamerColor.inherit (bc : BeamerColor) (ground_to : String) (specs : List BlendSpec) :
    Option BeamerColor :=
  (_blend specs).bind fun color_to_apply =>
    (specs.foldlM (fun (b : BeamerColor) spec => b.appendParent ground_to (edgeRef spec)) bc).bind
      fun bc1 =>
      if ground_to = "fg" then bc1._set_fg color_to_apply
      else if ground_to = "bg" then bc1._set_bg color_to_apply
      else some bc1

/-- The raw black node of the concrete scenario:
`create_raw("black", "#000000")`. -/
def rawBlack : Option RawColor := (mkRawColor "black").set_color (ColorSpec.str "#000000")

/-- The raw white node of the concrete scenario:
`create_raw("white", "#FFFFFF")`. -/
def rawWhite : Option RawColor := (mkRawColor "white").set_color (ColorSpec.str "#FFFFFF")

/-- The derived node of the concrete scenario: a fresh node "x" whose
foreground inherits 50 percent from raw black and 50 percent from raw
white. -/
def nodeX : Option BeamerColor :=
  rawBlack.bind fun b =>
    rawWhite.bind fun w =>
      (mkBeamerColor "x").inherit "fg"
        [(ColorNode.raw b, "raw-color", some 50), (ColorNode.raw w, "raw-color", some 50)]

/-- The foreground read back from the scenario node. -/
def nodeXFg : Option String := nodeX.bind (fun n => n.get "fg")

/-! ### Helper lemmas about the discretization and the hex round trip -/

lemma cancel255 (k : ℕ) : (255 : ℚ) * ((k : ℚ) / 255) = (k : ℚ) := by
  field_simp

lemma rnd_natCast (k : ℕ) : rnd ((k : ℚ)) = (k : ℤ) := by
  simp [rnd, Int.floor_natCast]

lemma rnd_quant (k : ℕ) : rnd (255 * ((k : ℚ) / 255)) = (k : ℤ) := by
  rw [cancel255]; exact rnd_natCast k

lemma quant_nonneg (k : ℕ) : 0 ≤ (k : ℚ) / 255 := by positivity

lemma quant_le_one (k : ℕ) (h : k ≤ 255) : (k : ℚ) / 255 ≤ 1 := by
  rw [div_le_one (by norm_num)]
  exact_mod_cast h

lemma hexDigitVal_hexDigitChar (n : ℕ) (h : n < 16) :
    hexDigitVal (hexDigitChar n) = some n := by
  interval_cases n <;> decide

lemma hexPairVal_byte (n : ℕ) (h : n < 256) :
    hexPairVal (hexDigitChar (n / 16 % 16)) (hexDigitChar (n % 16)) = some n := by
  have h1 := hexDigitVal_hexDigitChar (n / 16 % 16) (by omega)
  have h2 := hexDigitVal_hexDigitChar (n % 16) (by omega)
  simp [hexPairVal, h1, h2]
  omega

lemma to_rgba_mkHex8 (r g b a : ℕ) (hr : r ≤ 255) (hg : g ≤ 255) (hb : b ≤ 255)
    (ha : a ≤ 255) :
    to_rgba (ColorSpec.str (mkHex8 r g b a)) =
      some ⟨(r : ℚ) / 255, (g : ℚ) / 255, (b : ℚ) / 255, (a : ℚ) / 255⟩ := by
  have h1 := hexPairVal_byte r (by omega)
  have h2 := hexPairVal_byte g (by omega)
  have h3 := hexPairVal_byte b (by omega)
  have h4 := hexPairVal_byte a (by omega)
  simp [to_rgba, mkHex8, byteHexChars, parseHexDigits, h1, h2, h3, h4]

lemma to_rgba_mkHex6 (r g b : ℕ) (hr : r ≤ 255) (hg : g ≤ 255) (hb : b ≤ 255) :
    to_rgba (ColorSpec.str (mkHex6 r g b)) =
      some ⟨(r : ℚ) / 255, (g : ℚ) / 255, (b : ℚ) / 255, 1⟩ := by
  have h1 := hexPairVal_byte r (by omega)
  have h2 := hexPairVal_byte g (by omega)
  have h3 := hexPairVal_byte b (by omega)
  simp [to_rgba, mkHex6, byteHexChars, parseHexDigits, h1, h2, h3]

lemma fmtRgba_quant8 (r g b a : ℕ) :
    fmtRgba ⟨(r : ℚ) / 255, (g : ℚ) / 255, (b : ℚ) / 255, (a : ℚ) / 255⟩ true =
      mkHex8 r g b a := by
  simp [fmtRgba, mkHex8, rnd_quant]

lemma fmtRgba_quant6 (r g b : ℕ) (x : ℚ) :
    fmtRgba ⟨(r : ℚ) / 255, (g : ℚ) / 255, (b : ℚ) / 255, x⟩ false = mkHex6 r g b := by
  simp [fmtRgba, mkHex6, rnd_quant]

lemma to_hex_str_mkHex8 (r g b a : ℕ) (hr : r ≤ 255) (hg : g ≤ 255) (hb : b ≤ 255)
    (ha : a ≤ 255) :
    to_hex (ColorSpec.str (mkHex8 r g b a)) true = some (mkHex8 r g b a) := by
  rw [to_hex, to_rgba_mkHex8 r g b a hr hg hb ha, Option.map_some']
  rw [fmtRgba_quant8]

lemma to_hex_rgba_quant6 (r g b : ℕ) (x : ℚ) (hr : r ≤ 255) (hg : g ≤ 255) (hb : b ≤ 255)
    (hx0 : 0 ≤ x) (hx1 : x ≤ 1) :
    to_hex (ColorSpec.rgba ((r : ℚ) / 255) ((g : ℚ) / 255) ((b : ℚ) / 255) x) false =
      some (mkHex6 r g b) := by
  rw [to_hex, to_rgba,
    if_pos ⟨quant_nonneg r, quant_le_one r hr, quant_nonneg g, quant_le_one g hg,
      quant_nonneg b, quant_le_one b hb, hx0, hx1⟩, Option.map_some']
  rw [fmtRgba_quant6]

lemma invByte_quant (k : ℕ) (h : k ≤ 255) :
    invByte ((k : ℚ) / 255) = ((255 - k : ℕ) : ℚ) / 255 := by
  unfold invByte
  rw [cancel255, Int.floor_natCast, Int.emod_eq_of_lt (by omega) (by omega),
    Nat.cast_sub h]
  push_cast
  ring

lemma invByte_one : invByte 1 = 0 := by
  have h : ((255 : ℚ) * 1) = ((255 : ℤ) : ℚ) := by norm_num
  rw [invByte, h, Int.floor_intCast]
  norm_num

lemma invert_color_mkHex8 (r g b a : ℕ) (hr : r ≤ 255) (hg : g ≤ 255) (hb : b ≤ 255)
    (ha : a ≤ 255) :
    invert_color (ColorSpec.str (mkHex8 r g b a)) =
      some (mkHex6 (255 - r) (255 - g) (255 - b)) := by
  rw [invert_color, to_rgba_mkHex8 r g b a hr hg hb ha, Option.some_bind]
  rw [invByte_quant r hr, invByte_quant g hg, invByte_quant b hb, invByte_quant a ha]
  exact to_hex_rgba_quant6 (255 - r) (255 - g) (255 - b) _ (by omega) (by omega) (by omega)
    (quant_nonneg (255 - a)) (quant_le_one (255 - a) (by omega))

lemma invert_color_mkHex6 (r g b : ℕ) (hr : r ≤ 255) (hg : g ≤ 255) (hb : b ≤ 255) :
    invert_color (ColorSpec.str (mkHex6 r g b)) =
      some (mkHex6 (255 - r) (255 - g) (255 - b)) := by
  rw [invert_color, to_rgba_mkHex6 r g b hr hg hb, Option.some_bind]
  rw [invByte_quant r hr, invByte_quant g hg, invByte_quant b hb, invByte_one]
  exact to_hex_rgba_quant6 (255 - r) (255 - g) (255 - b) 0 (by omega) (by omega) (by omega)
    le_rfl zero_le_one

/-! ### Helper lemmas about the node operations -/

lemma _set_fg_eq (bc : BeamerColor) (s hex inv : String)
    (h1 : to_hex (ColorSpec.str s) true = some hex)
    (h2 : invert_color (ColorSpec.str hex) = some inv) :
    bc._set_fg s = some { bc with fg := hex, inverted_fg := inv } := by
  simp [BeamerColor._set_fg, h1, h2]

lemma _set_bg_eq (bc : BeamerColor) (s hex inv : String)
    (h1 : to_hex (ColorSpec.str s) true = some hex)
    (h2 : invert_color (ColorSpec.str hex) = some inv) :
    bc._set_bg s = some { bc with bg := hex, inverted_bg := inv } := by
  simp [BeamerColor._set_bg, h1, h2]

lemma _set_fg_shape (bc bc2 : BeamerColor) (s : String) (h : bc._set_fg s = some bc2) :
    ∃ hex inv, bc2 = { bc with fg := hex, inverted_fg := inv } := by
  unfold BeamerColor._set_fg at h
  cases hto : to_hex (ColorSpec.str s) true with
  | none => rw [hto] at h; simp at h
  | some hex =>
    rw [hto, Option.some_bind] at h
    cases hinv : invert_color (ColorSpec.str hex) with
    | none => rw [hinv] at h; simp at h
    | some inv =>
      rw [hinv, Option.map_some'] at h
      exact ⟨hex, inv, (Option.some_inj.mp h).symm⟩

lemma _set_bg_shape (bc bc2 : BeamerColor) (s : String) (h : bc._set_bg s = some bc2) :
    ∃ hex inv, bc2 = { bc with bg := hex, inverted_bg := inv } := by
  unfold BeamerColor._set_bg at h
  cases hto : to_hex (ColorSpec.str s) true with
  | none => rw [hto] at h; simp at h
  | some hex =>
    rw [hto, Option.some_bind] at h
    cases hinv : invert_color (ColorSpec.str hex) with
    | none => rw [hinv] at h; simp at h
    | some inv =>
      rw [hinv, Option.map_some'] at h
      exact ⟨hex, inv, (Option.some_inj.mp h).symm⟩

lemma appendParent_both_eq (bc : BeamerColor) (e : String) :
    bc.appendParent "both" e = some { bc with parents_both := bc.parents_both ++ [e] } := rfl

lemma appendParent_fg_eq (bc : BeamerColor) (e : String) :
    bc.appendParent "fg" e = some { bc with parents_fg := bc.parents_fg ++ [e] } := rfl

lemma appendParent_bg_eq (bc : BeamerColor) (e : String) :
    bc.appendParent "bg" e = some { bc with parents_bg := bc.parents_bg ++ [e] } := rfl

lemma foldl_append_both (specs : List BlendSpec) (bc : BeamerColor) :
    specs.foldlM (fun b spec => b.appendParent "both" (edgeRef spec)) bc =
      some { bc with parents_both := bc.parents_both ++ specs.map edgeRef } := by
  induction specs generalizing bc with
  | nil => simp
  | cons spec rest ih =>
    rw [List.foldlM_cons, appendParent_both_eq, Option.bind_eq_bind', Option.some_bind, ih]
    simp [List.append_assoc]

lemma foldl_append_fg (specs : List BlendSpec) (bc : BeamerColor) :
    specs.foldlM (fun b spec => b.appendParent "fg" (edgeRef spec)) bc =
      some { bc with parents_fg := bc.parents_fg ++ specs.map edgeRef } := by
  induction specs generalizing bc with
  | nil => simp
  | cons spec rest ih =>
    rw [List.foldlM_cons, appendParent_fg_eq, Option.bind_eq_bind', Option.some_bind, ih]
    simp [List.append_assoc]

lemma foldl_append_bg (specs : List BlendSpec) (bc : BeamerColor) :
    specs.foldlM (fun b spec => b.appendParent "bg" (edgeRef spec)) bc =
      some { bc with parents_bg := bc.parents_bg ++ specs.map edgeRef } := by
  induction specs generalizing bc with
  | nil => simp
  | cons spec rest ih =>
    rw [List.foldlM_cons, appendParent_bg_eq, Option.bind_eq_bind', Option.some_bind, ih]
    simp [List.append_assoc]

lemma foldl_append_bad (key : String) (hk1 : key ≠ "both") (hk2 : key ≠ "fg")
    (hk3 : key ≠ "bg") (spec : BlendSpec) (rest : List BlendSpec) (bc : BeamerColor) :
    (spec :: rest).foldlM (fun b s => b.appendParent key (edgeRef s)) bc = none := by
  rw [List.foldlM_cons]
  rw [show bc.appendParent key (edgeRef spec) = none by
    simp [BeamerColor.appendParent, hk1, hk2, hk3]]
  rfl

lemma _blend_nil : _blend [] = none := rfl

lemma to_hex_str_concrete (s : String) (r g b a : ℕ)
    (hp : to_rgba (ColorSpec.str s) =
      some ⟨(r : ℚ) / 255, (g : ℚ) / 255, (b : ℚ) / 255, (a : ℚ) / 255⟩) :
    to_hex (ColorSpec.str s) true = some (mkHex8 r g b a) := by
  rw [to_hex, hp, Option.map_some', fmtRgba_quant8]

lemma invert_color_concrete (s : String) (r g b a : ℕ) (hr : r ≤ 255) (hg : g ≤ 255)
    (hb : b ≤ 255) (ha : a ≤ 255)
    (hp : to_rgba (ColorSpec.str s) =
      some ⟨(r : ℚ) / 255, (g : ℚ) / 255, (b : ℚ) / 255, (a : ℚ) / 255⟩) :
    invert_color (ColorSpec.str s) = some (mkHex6 (255 - r) (255 - g) (255 - b)) := by
  rw [invert_color, hp, Option.some_bind]
  rw [invByte_quant r hr, invByte_quant g hg, invByte_quant b hb, invByte_quant a ha]
  exact to_hex_rgba_quant6 _ _ _ _ (by omega) (by omega) (by omega)
    (quant_nonneg (255 - a)) (quant_le_one (255 - a) (by omega))

lemma to_rgba_parse6 (s : String) (r g b : ℕ)
    (hp : to_rgba (ColorSpec.str s) = some ⟨(r : ℚ) / 255, (g : ℚ) / 255, (b : ℚ) / 255, 1⟩) :
    to_rgba (ColorSpec.str s) =
      some ⟨(r : ℚ) / 255, (g : ℚ) / 255, (b : ℚ) / 255, ((255 : ℕ) : ℚ) / 255⟩ := by
  rw [hp]
  norm_num

lemma _set_fg_concrete (bc : BeamerColor) (s : String) (r g b a : ℕ) (hr : r ≤ 255)
    (hg : g ≤ 255) (hb : b ≤ 255) (ha : a ≤ 255)
    (hp : to_rgba (ColorSpec.str s) =
      some ⟨(r : ℚ) / 255, (g : ℚ) / 255, (b : ℚ) / 255, (a : ℚ) / 255⟩) :
    bc._set_fg s =
      some { bc with
              fg := mkHex8 r g b a,
              inverted_fg := mkHex6 (255 - r) (255 - g) (255 - b) } := by
  rw [BeamerColor._set_fg, to_hex_str_concrete s r g b a hp, Option.some_bind,
    invert_color_concrete (mkHex8 r g b a) r g b a hr hg hb ha (to_rgba_mkHex8 r g b a hr hg hb ha),
    Option.map_some']

lemma _set_bg_concrete (bc : BeamerColor) (s : String) (r g b a : ℕ) (hr : r ≤ 255)
    (hg : g ≤ 255) (hb : b ≤ 255) (ha : a ≤ 255)
    (hp : to_rgba (ColorSpec.str s) =
      some ⟨(r : ℚ) / 255, (g : ℚ) / 255, (b : ℚ) / 255, (a : ℚ) / 255⟩) :
    bc._set_bg s =
      some { bc with
              bg := mkHex8 r g b a,
              inverted_bg := mkHex6 (255 - r) (255 - g) (255 - b) } := by
  rw [BeamerColor._set_bg, to_hex_str_concrete s r g b a hp, Option.some_bind,
    invert_color_concrete (mkHex8 r g b a) r g b a hr hg hb ha (to_rgba_mkHex8 r g b a hr hg hb ha),
    Option.map_some']

lemma set_color_concrete (rc : RawColor) (c : ColorSpec) (r g b a : ℕ) (hr : r ≤ 255)
    (hg : g ≤ 255) (hb : b ≤ 255) (ha : a ≤ 255)
    (hp : to_rgba c = some ⟨(r : ℚ) / 255, (g : ℚ) / 255, (b : ℚ) / 255, (a : ℚ) / 255⟩) :
    rc.set_color c =
      some { rc with
              color := mkHex8 r g b a,
              fontcolor := mkHex6 (255 - r) (255 - g) (255 - b) } := by
  rw [RawColor.set_color, to_hex, hp, Option.map_some', fmtRgba_quant8, Option.some_bind,
    invert_color_concrete (mkHex8 r g b a) r g b a hr hg hb ha (to_rgba_mkHex8 r g b a hr hg hb ha),
    Option.map_some']

lemma inherit_fg_single_eval :
    (mkBeamerColor "n").inherit "fg" [(ColorNode.raw (mkRawColor "r"), "c", none)] =
      some { mkBeamerColor "n" with
              fg := mkHex8 255 255 255 255,
              inverted_fg := mkHex6 0 0 0,
              parents_fg := ["\"r\":color"] } := by
  rw [BeamerColor.inherit]
  rw [show _blend [(ColorNode.raw (mkRawColor "r"), "c", none)] = some "#FFFFFFFF" from rfl]
  rw [Option.some_bind, foldl_append_fg, Option.some_bind, if_pos rfl]
  rw [_set_fg_concrete _ "#FFFFFFFF" 255 255 255 255 (by norm_num) (by norm_num) (by norm_num)
    (by norm_num) rfl]
  rfl

lemma set_parent_default_eval :
    (mkBeamerColor "c").set_parent (mkBeamerColor "p") =
      some { mkBeamerColor "c" with
              fg := mkHex8 255 255 255 0,
              inverted_fg := mkHex6 0 0 0,
              bg := mkHex8 0 0 0 0,
              inverted_bg := mkHex6 255 255 255,
              parents_both := ["p"] } := by
  rw [BeamerColor.set_parent]
  rw [_set_fg_concrete _ ((mkBeamerColor "p").fg) 255 255 255 0 (by norm_num) (by norm_num)
    (by norm_num) (by norm_num) rfl]
  rw [Option.some_bind]
  rw [_set_bg_concrete _ ((mkBeamerColor "p").bg) 0 0 0 0 (by norm_num) (by norm_num)
    (by norm_num) (by norm_num) rfl]
  rfl

/-! ### Claim theorems -/

/-- Claim C4: blending a single component is the identity.  `_blend` on a
one-element list returns the source value unchanged through `get`,
bypassing the weighted-sum path entirely; any weight entry (100, another
number, or no weight at all) is ignored. -/
theorem blend_single_is_identity (n : ColorNode) (c : String) (w : Option ℚ) (v : String)
    (h : ColorNode.get n c = some v) :
    _blend [(n, c, w)] = some v :=
  h

/-- Witness for claim C4 at a concrete input: a raw node with the default
color, blended alone with weight 100, comes back unchanged. -/
theorem blend_single_is_identity_witness :
    _blend [(ColorNode.raw (mkRawColor "r"), "anything", some 100)] = some "#FFFFFFFF" :=
  blend_single_is_identity (ColorNode.raw (mkRawColor "r")) "anything" (some 100) "#FFFFFFFF" rfl

/-- Claim C7: `RawColor.get` ignores its channel argument and always
returns the one stored color; `BeamerColor.get` returns the foreground for
"fg", the background for "bg", and fails (RuntimeError, modelled `none`)
for every other channel name. -/
theorem get_channel_dispatch (rc : RawColor) (bc : BeamerColor) (c1 c2 c3 : String)
    (h1 : c3 ≠ "fg") (h2 : c3 ≠ "bg") :
    rc.get c1 = rc.get c2 ∧ rc.get c1 = rc.color ∧
    bc.get "fg" = some bc.fg ∧ bc.get "bg" = some bc.bg ∧ bc.get c3 = none := by
  refine ⟨rfl, rfl, rfl, rfl, ?_⟩
  rw [BeamerColor.get, if_neg h1, if_neg h2]

/-- Witness for claim C7 at concrete inputs, with "border" as the
unsupported channel name. -/
theorem get_channel_dispatch_witness :
    (mkRawColor "r").get "foo" = (mkRawColor "r").get "bar" ∧
    (mkRawColor "r").get "foo" = (mkRawColor "r").color ∧
    (mkBeamerColor "x").get "fg" = some (mkBeamerColor "x").fg ∧
    (mkBeamerColor "x").get "bg" = some (mkBeamerColor "x").bg ∧
    (mkBeamerColor "x").get "border" = none :=
  get_channel_dispatch (mkRawColor "r") (mkBeamerColor "x") "foo" "bar" "border"
    (by decide) (by decide)

/-- Claim C9: every node is fully defined immediately after construction:
a fresh RawColor holds color #FFFFFFFF with label color #000000FF, a fresh
BeamerColor holds foreground #FFFFFF00, background #00000000 and both
inverses #000000FF, and `get` on a valid channel already succeeds with
these defaults. -/
theorem construction_defaults (name : String) :
    (mkRawColor name).color = "#FFFFFFFF" ∧ (mkRawColor name).fontcolor = "#000000FF" ∧
    (∀ c, (mkRawColor name).get c = "#FFFFFFFF") ∧
    (mkBeamerColor name).fg = "#FFFFFF00" ∧ (mkBeamerColor name).inverted_fg = "#000000FF" ∧
    (mkBeamerColor name).bg = "#00000000" ∧ (mkBeamerColor name).inverted_bg = "#000000FF" ∧
    (mkBeamerColor name).get "fg" = some "#FFFFFF00" ∧
    (mkBeamerColor name).get "bg" = some "#00000000" :=
  ⟨rfl, rfl, fun _ => rfl, rfl, rfl, rfl, rfl, rfl, rfl⟩

/-- Claim C10: `inherit` with destination channel "both" (a key of the
edge map that is neither "fg" nor "bg") raises no error: it records one
edge per source under the "both" key and leaves the foreground, the
background and both inverses unchanged, silently discarding the blended
value (only `parents_both` changes in the returned node). -/
theorem inherit_both_discards (bc : BeamerColor) (specs : List BlendSpec) (v : String)
    (h : _blend specs = some v) :
    bc.inherit "both" specs =
      some { bc with parents_both := bc.parents_both ++ specs.map edgeRef } ∧
    (specs.map edgeRef).length = specs.length := by
  constructor
  · rw [BeamerColor.inherit, h, Option.some_bind, foldl_append_both, Option.some_bind,
      if_neg (by decide), if_neg (by decide)]
  · exact List.length_map specs edgeRef

/-- Witness for claim C10 at a concrete input: a single direct-copy source
triple, recorded under "both" without touching any channel. -/
theorem inherit_both_discards_witness :
    (mkBeamerColor "n").inherit "both" [(ColorNode.raw (mkRawColor "p"), "c", some 42)] =
      some { mkBeamerColor "n" with
              parents_both := (mkBeamerColor "n").parents_both ++
                [(ColorNode.raw (mkRawColor "p"), ("c" : String),
                  (some (42 : ℚ) : Option ℚ))].map edgeRef } ∧
    ([(ColorNode.raw (mkRawColor "p"), ("c" : String),
        (some (42 : ℚ) : Option ℚ))].map edgeRef).length =
      [(ColorNode.raw (mkRawColor "p"), ("c" : String), (some (42 : ℚ) : Option ℚ))].length :=
  inherit_both_discards (mkBeamerColor "n")
    [(ColorNode.raw (mkRawColor "p"), "c", some 42)] "#FFFFFFFF" rfl

/-- Claim C8: edge-count invariant.  A successful `inherit` with N source
triples grows the edge list of its destination key by exactly N entries,
and a successful `set_parent` grows the full-identity list "both" by
exactly one entry. -/
theorem edge_count_invariant (bc : BeamerColor) (g : String) (specs : List BlendSpec)
    (bc2 : BeamerColor) (h : bc.inherit g specs = some bc2)
    (ch parent ch2 : BeamerColor) (hsp : ch.set_parent parent = some ch2) :
    (bc2.parentsOf g).map List.length =
      (bc.parentsOf g).map (fun l => l.length + specs.length) ∧
    ch2.parents_both.length = ch.parents_both.length + 1 := by
  constructor
  · rw [BeamerColor.inherit] at h
    cases hbl : _blend specs with
    | none => rw [hbl] at h; exact absurd h (by simp)
    | some v =>
      rw [hbl, Option.some_bind] at h
      have hne : specs ≠ [] := by
        intro he
        rw [he, _blend_nil] at hbl
        cases hbl
      by_cases h1 : g = "both"
      · subst h1
        rw [foldl_append_both, Option.some_bind, if_neg (by decide), if_neg (by decide)] at h
        have hb2 := Option.some_inj.mp h
        subst hb2
        simp [BeamerColor.parentsOf]
      · by_cases h2 : g = "fg"
        · subst h2
          rw [foldl_append_fg, Option.some_bind, if_pos rfl] at h
          obtain ⟨hex, inv, rfl⟩ := _set_fg_shape _ _ _ h
          simp [BeamerColor.parentsOf]
        · by_cases h3 : g = "bg"
          · subst h3
            rw [foldl_append_bg, Option.some_bind, if_neg (by decide), if_pos rfl] at h
            obtain ⟨hex, inv, rfl⟩ := _set_bg_shape _ _ _ h
            simp [BeamerColor.parentsOf]
          · cases specs with
            | nil => exact absurd rfl hne
            | cons s rest =>
              rw [foldl_append_bad g h1 h2 h3] at h
              exact absurd h (by simp)
  · rw [BeamerColor.set_parent] at hsp
    cases hfg : ({ ch with parents_both := ch.parents_both ++ [parent.id] })._set_fg parent.fg with
    | none => rw [hfg] at hsp; exact absurd hsp (by simp)
    | some m =>
      rw [hfg, Option.some_bind] at hsp
      obtain ⟨hex1, inv1, rfl⟩ := _set_fg_shape _ _ _ hfg
      obtain ⟨hex2, inv2, rfl⟩ := _set_bg_shape _ _ _ hsp
      simp

/-- Witness for claim C8 at concrete inputs: an `inherit` with one source
triple on channel "fg", and a `set_parent` between two fresh nodes. -/
theorem edge_count_invariant_witness :
    (({ mkBeamerColor "n" with
          fg := mkHex8 255 255 255 255,
          inverted_fg := mkHex6 0 0 0,
          parents_fg := ["\"r\":color"] } : BeamerColor).parentsOf "fg").map List.length =
      ((mkBeamerColor "n").parentsOf "fg").map
        (fun l => l.length + [(ColorNode.raw (mkRawColor "r"), ("c" : String),
          (none : Option ℚ))].length) ∧
    ({ mkBeamerColor "c" with
        fg := mkHex8 255 255 255 0,
        inverted_fg := mkHex6 0 0 0,
        bg := mkHex8 0 0 0 0,
        inverted_bg := mkHex6 255 255 255,
        parents_both := ["p"] } : BeamerColor).parents_both.length =
      (mkBeamerColor "c").parents_both.length + 1 :=
  edge_count_invariant (mkBeamerColor "n") "fg"
    [(ColorNode.raw (mkRawColor "r"), "c", none)]
    { mkBeamerColor "n" with
        fg := mkHex8 255 255 255 255,
        inverted_fg := mkHex6 0 0 0,
        parents_fg := ["\"r\":color"] }
    inherit_fg_single_eval
    (mkBeamerColor "c") (mkBeamerColor "p")
    { mkBeamerColor "c" with
        fg := mkHex8 255 255 255 0,
        inverted_fg := mkHex6 0 0 0,
        bg := mkHex8 0 0 0 0,
        inverted_bg := mkHex6 255 255 255,
        parents_both := ["p"] }
    set_parent_default_eval

/-- Claim C1 counterexample: the source serializes the inverted value with
`keep_alpha=False`, so the alpha channel is dropped, not preserved.
Inverting #000000FF yields the 6-digit "#ffffff", not "#FFFFFFFF", and
inverting #FFFFFFFF yields "#000000", not "#000000FF". -/
theorem invert_alpha_counterexample :
    invert_color (ColorSpec.str "#000000FF") = some "#ffffff" ∧
    invert_color (ColorSpec.str "#000000FF") ≠ some "#FFFFFFFF" ∧
    invert_color (ColorSpec.str "#FFFFFFFF") = some "#000000" ∧
    invert_color (ColorSpec.str "#FFFFFFFF") ≠ some "#000000FF" := by
  have h1 : invert_color (ColorSpec.str "#000000FF") = some "#ffffff" :=
    invert_color_concrete "#000000FF" 0 0 0 255 (by norm_num) (by norm_num) (by norm_num)
      (by norm_num) rfl
  have h2 : invert_color (ColorSpec.str "#FFFFFFFF") = some "#000000" :=
    invert_color_concrete "#FFFFFFFF" 255 255 255 255 (by norm_num) (by norm_num) (by norm_num)
      (by norm_num) rfl
  refine ⟨h1, ?_, h2, ?_⟩
  · rw [h1]; decide
  · rw [h2]; decide

/-- Claim C1 (amended): for a color value with channel bytes r, g, b, a,
`invert_color` returns the 6-digit lower-case hex whose RGB channels are
the 256-level complements 255 - r, 255 - g, 255 - b; the alpha channel is
inverted internally and then dropped from the output rather than
preserved. -/
theorem invert_color_complements_rgb_drops_alpha (r g b a : ℕ) (hr : r ≤ 255) (hg : g ≤ 255)
    (hb : b ≤ 255) (ha : a ≤ 255) :
    invert_color (ColorSpec.str (mkHex8 r g b a)) =
      some (mkHex6 (255 - r) (255 - g) (255 - b)) :=
  invert_color_mkHex8 r g b a hr hg hb ha

/-- Witness for the amended claim C1 at the concrete input #000000ff. -/
theorem invert_color_complements_rgb_drops_alpha_witness :
    invert_color (ColorSpec.str "#000000ff") = some "#ffffff" ∧
    mkHex8 0 0 0 255 = "#000000ff" ∧ mkHex6 255 255 255 = "#ffffff" :=
  ⟨invert_color_complements_rgb_drops_alpha 0 0 0 255 (by norm_num) (by norm_num) (by norm_num)
    (by norm_num), rfl, rfl⟩

/-- Claim C6: inverting twice recovers the RGB channels of the original
value, well within the claimed one-discretization-step tolerance: the
bytes are recovered exactly (the alpha byte is dropped by the first
inversion, see C1). -/
theorem invert_invert_recovers_rgb (r g b a : ℕ) (hr : r ≤ 255) (hg : g ≤ 255) (hb : b ≤ 255)
    (ha : a ≤ 255) :
    (invert_color (ColorSpec.str (mkHex8 r g b a))).bind
      (fun s => invert_color (ColorSpec.str s)) = some (mkHex6 r g b) := by
  rw [invert_color_mkHex8 r g b a hr hg hb ha, Option.some_bind,
    invert_color_mkHex6 (255 - r) (255 - g) (255 - b) (by omega) (by omega) (by omega)]
  congr 1
  rw [Nat.sub_sub_self hr, Nat.sub_sub_self hg, Nat.sub_sub_self hb]

/-- Witness for claim C6 at the concrete input #12345600. -/
theorem invert_invert_recovers_rgb_witness :
    (invert_color (ColorSpec.str "#12345600")).bind (fun s => invert_color (ColorSpec.str s)) =
      some "#123456" :=
  invert_invert_recovers_rgb 18 52 86 0 (by norm_num) (by norm_num) (by norm_num) (by norm_num)

/-- Claim C5 counterexample: `set_parent` re-serializes the copied
channels to canonical lower-case hex, so on a freshly constructed parent
(whose default foreground is the upper-case "#FFFFFF00") the child's
foreground is "#ffffff00" and the string equality
`child.get("fg") == parent.get("fg")` fails. -/
theorem set_parent_copy_counterexample :
    ((mkBeamerColor "c").set_parent (mkBeamerColor "p")).bind (fun ch => ch.get "fg") =
      some "#ffffff00" ∧
    (mkBeamerColor "p").get "fg" = some "#FFFFFF00" ∧
    ((mkBeamerColor "c").set_parent (mkBeamerColor "p")).bind (fun ch => ch.get "fg") ≠
      (mkBeamerColor "p").get "fg" := by
  refine ⟨?_, rfl, ?_⟩
  · rw [set_parent_default_eval]; rfl
  · rw [set_parent_default_eval]; decide

/-- Claim C5 (amended): after `set_parent(child, parent)` the child's
channels are the canonical lower-case 8-digit re-serializations of the
parent's channels (the same color values, alpha included); whenever the
parent's channels are already in canonical form - as they are after any
`set_color`, `set_parent` or `inherit` - the claimed string equalities
`child.get("fg") == parent.get("fg")` and `child.get("bg") ==
parent.get("bg")` hold, and `set_parent` succeeds, returning the updated
node for chaining. -/
theorem set_parent_copies_canonical (child parent : BeamerColor)
    (rf gf bf af rb gb bb ab : ℕ)
    (hrf : rf ≤ 255) (hgf : gf ≤ 255) (hbf : bf ≤ 255) (haf : af ≤ 255)
    (hrb : rb ≤ 255) (hgb : gb ≤ 255) (hbb : bb ≤ 255) (hab : ab ≤ 255)
    (hpf : parent.fg = mkHex8 rf gf bf af) (hpb : parent.bg = mkHex8 rb gb bb ab) :
    ((child.set_parent parent).bind fun ch => ch.get "fg") = parent.get "fg" ∧
    ((child.set_parent parent).bind fun ch => ch.get "bg") = parent.get "bg" ∧
    (child.set_parent parent).isSome = true := by
  have hf := _set_fg_concrete { child with parents_both := child.parents_both ++ [parent.id] }
    parent.fg rf gf bf af hrf hgf hbf haf
    (by rw [hpf]; exact to_rgba_mkHex8 rf gf bf af hrf hgf hbf haf)
  have hb2 := _set_bg_concrete
    { { child with parents_both := child.parents_both ++ [parent.id] } with
        fg := mkHex8 rf gf bf af,
        inverted_fg := mkHex6 (255 - rf) (255 - gf) (255 - bf) }
    parent.bg rb gb bb ab hrb hgb hbb hab
    (by rw [hpb]; exact to_rgba_mkHex8 rb gb bb ab hrb hgb hbb hab)
  rw [BeamerColor.set_parent, hf, Option.some_bind, hb2]
  refine ⟨?_, ?_, rfl⟩
  · simp [BeamerColor.get, hpf]
  · simp [BeamerColor.get, hpb]

/-- Witness for the amended claim C5: a parent whose channels are in
canonical lower-case hex form is copied with string equality. -/
theorem set_parent_copies_canonical_witness :
    (((mkBeamerColor "c").set_parent
        ⟨"p", "p", mkHex8 16 32 48 255, "#000000FF", mkHex8 1 2 3 4, "#000000FF", [], [], []⟩).bind
      fun ch => ch.get "fg") =
      (⟨"p", "p", mkHex8 16 32 48 255, "#000000FF", mkHex8 1 2 3 4, "#000000FF", [], [], []⟩ :
        BeamerColor).get "fg" ∧
    (((mkBeamerColor "c").set_parent
        ⟨"p", "p", mkHex8 16 32 48 255, "#000000FF", mkHex8 1 2 3 4, "#000000FF", [], [], []⟩).bind
      fun ch => ch.get "bg") =
      (⟨"p", "p", mkHex8 16 32 48 255, "#000000FF", mkHex8 1 2 3 4, "#000000FF", [], [], []⟩ :
        BeamerColor).get "bg" ∧
    ((mkBeamerColor "c").set_parent
      ⟨"p", "p", mkHex8 16 32 48 255, "#000000FF", mkHex8 1 2 3 4, "#000000FF", [], [], []⟩).isSome
      = true :=
  set_parent_copies_canonical (mkBeamerColor "c")
    ⟨"p", "p", mkHex8 16 32 48 255, "#000000FF", mkHex8 1 2 3 4, "#000000FF", [], [], []⟩
    16 32 48 255 1 2 3 4 (by norm_num) (by norm_num) (by norm_num) (by norm_num) (by norm_num)
    (by norm_num) (by norm_num) (by norm_num) rfl rfl

/-! ### Evaluation of the weighted blend -/

lemma convex_unit (A B s t : ℚ) (hA0 : 0 ≤ A) (hA1 : A ≤ 1) (hB0 : 0 ≤ B) (hB1 : B ≤ 1)
    (hs : 0 ≤ s) (ht : 0 ≤ t) (hst : s + t = 1) : 0 ≤ A * s + B * t ∧ A * s + B * t ≤ 1 := by
  constructor
  · exact add_nonneg (mul_nonneg hA0 hs) (mul_nonneg hB0 ht)
  · calc A * s + B * t ≤ 1 * s + 1 * t := by gcongr
    _ = 1 := by rw [one_mul, one_mul, hst]

lemma rnd_halfway : rnd ((255 : ℚ) / 2) = 128 := by
  have hf : ⌊(255 : ℚ) / 2⌋ = 127 := by norm_num
  rw [rnd, hf, if_neg (by norm_num), if_neg (by norm_num), if_neg (by decide)]
  decide

lemma to_hex_rgba_inrange (x y z : ℚ) (a : ℕ) (hx0 : 0 ≤ x) (hx1 : x ≤ 1) (hy0 : 0 ≤ y)
    (hy1 : y ≤ 1) (hz0 : 0 ≤ z) (hz1 : z ≤ 1) (ha : a ≤ 255) :
    to_hex (ColorSpec.rgba x y z ((a : ℚ) / 255)) true =
      some (mkHex8 (rnd (255 * x)).toNat (rnd (255 * y)).toNat (rnd (255 * z)).toNat a) := by
  rw [to_hex, to_rgba,
    if_pos ⟨hx0, hx1, hy0, hy1, hz0, hz1, quant_nonneg a, quant_le_one a ha⟩, Option.map_some']
  simp [fmtRgba, mkHex8, rnd_quant]

lemma blendStep_eval (x y z : ℚ) (n : ColorNode) (c : String) (w : ℚ) (r g b a : ℕ)
    (hr : r ≤ 255) (hg : g ≤ 255) (hb : b ≤ 255) (ha : a ≤ 255)
    (hget : ColorNode.get n c = some (mkHex8 r g b a)) :
    blendStep (x, y, z) (n, c, some w) =
      some (x + (r : ℚ) / 255 * w / 100, y + (g : ℚ) / 255 * w / 100,
        z + (b : ℚ) / 255 * w / 100) := by
  simp only [blendStep]
  rw [hget, Option.some_bind, to_rgba_mkHex8 r g b a hr hg hb ha, Option.some_bind,
    Option.map_some']

lemma foldlM_blendStep_two_eval (n1 n2 : ColorNode) (c1 c2 : String) (w1 w2 : ℚ)
    (r1 g1 b1 a1 r2 g2 b2 a2 : ℕ)
    (hr1 : r1 ≤ 255) (hg1 : g1 ≤ 255) (hb1 : b1 ≤ 255) (ha1 : a1 ≤ 255)
    (hr2 : r2 ≤ 255) (hg2 : g2 ≤ 255) (hb2 : b2 ≤ 255) (ha2 : a2 ≤ 255)
    (h1 : ColorNode.get n1 c1 = some (mkHex8 r1 g1 b1 a1))
    (h2 : ColorNode.get n2 c2 = some (mkHex8 r2 g2 b2 a2)) :
    [(n1, c1, some w1), (n2, c2, some w2)].foldlM blendStep ((0 : ℚ), (0 : ℚ), (0 : ℚ)) =
      some ((0 : ℚ) + (r1 : ℚ) / 255 * w1 / 100 + (r2 : ℚ) / 255 * w2 / 100,
        (0 : ℚ) + (g1 : ℚ) / 255 * w1 / 100 + (g2 : ℚ) / 255 * w2 / 100,
        (0 : ℚ) + (b1 : ℚ) / 255 * w1 / 100 + (b2 : ℚ) / 255 * w2 / 100) := by
  rw [List.foldlM_cons,
    blendStep_eval 0 0 0 n1 c1 w1 r1 g1 b1 a1 hr1 hg1 hb1 ha1 h1,
    Option.bind_eq_bind', Option.some_bind, List.foldlM_cons,
    blendStep_eval ((0 : ℚ) + (r1 : ℚ) / 255 * w1 / 100) ((0 : ℚ) + (g1 : ℚ) / 255 * w1 / 100)
      ((0 : ℚ) + (b1 : ℚ) / 255 * w1 / 100) n2 c2 w2 r2 g2 b2 a2 hr2 hg2 hb2 ha2 h2,
    Option.bind_eq_bind', Option.some_bind, List.foldlM_nil]
  rfl

lemma _blend_two_eval (n1 n2 : ColorNode) (c1 c2 : String) (w1 w2 : ℚ)
    (r1 g1 b1 a1 r2 g2 b2 a2 : ℕ)
    (hr1 : r1 ≤ 255) (hg1 : g1 ≤ 255) (hb1 : b1 ≤ 255) (ha1 : a1 ≤ 255)
    (hr2 : r2 ≤ 255) (hg2 : g2 ≤ 255) (hb2 : b2 ≤ 255) (ha2 : a2 ≤ 255)
    (h1 : ColorNode.get n1 c1 = some (mkHex8 r1 g1 b1 a1))
    (h2 : ColorNode.get n2 c2 = some (mkHex8 r2 g2 b2 a2))
    (hx0 : 0 ≤ (0 : ℚ) + (r1 : ℚ) / 255 * w1 / 100 + (r2 : ℚ) / 255 * w2 / 100)
    (hx1 : (0 : ℚ) + (r1 : ℚ) / 255 * w1 / 100 + (r2 : ℚ) / 255 * w2 / 100 ≤ 1)
    (hy0 : 0 ≤ (0 : ℚ) + (g1 : ℚ) / 255 * w1 / 100 + (g2 : ℚ) / 255 * w2 / 100)
    (hy1 : (0 : ℚ) + (g1 : ℚ) / 255 * w1 / 100 + (g2 : ℚ) / 255 * w2 / 100 ≤ 1)
    (hz0 : 0 ≤ (0 : ℚ) + (b1 : ℚ) / 255 * w1 / 100 + (b2 : ℚ) / 255 * w2 / 100)
    (hz1 : (0 : ℚ) + (b1 : ℚ) / 255 * w1 / 100 + (b2 : ℚ) / 255 * w2 / 100 ≤ 1) :
    _blend [(n1, c1, some w1), (n2, c2, some w2)] =
      some (mkHex8
        (rnd (255 * ((0 : ℚ) + (r1 : ℚ) / 255 * w1 / 100 + (r2 : ℚ) / 255 * w2 / 100))).toNat
        (rnd (255 * ((0 : ℚ) + (g1 : ℚ) / 255 * w1 / 100 + (g2 : ℚ) / 255 * w2 / 100))).toNat
        (rnd (255 * ((0 : ℚ) + (b1 : ℚ) / 255 * w1 / 100 + (b2 : ℚ) / 255 * w2 / 100))).toNat
        a1) := by
  have hun : _blend [(n1, c1, some w1), (n2, c2, some w2)] =
      ([((n1 : ColorNode), c1, some w1), (n2, c2, some w2)].foldlM blendStep
        ((0 : ℚ), (0 : ℚ), (0 : ℚ))).bind fun rgb =>
        (ColorNode.get n1 c1).bind fun s0 =>
          (to_rgba (ColorSpec.str s0)).bind fun q0 =>
            to_hex (ColorSpec.rgba rgb.1 rgb.2.1 rgb.2.2 q0.a) true := rfl
  rw [hun,
    foldlM_blendStep_two_eval n1 n2 c1 c2 w1 w2 r1 g1 b1 a1 r2 g2 b2 a2
      hr1 hg1 hb1 ha1 hr2 hg2 hb2 ha2 h1 h2,
    Option.some_bind, h1, Option.some_bind, to_rgba_mkHex8 r1 g1 b1 a1 hr1 hg1 hb1 ha1,
    Option.some_bind]
  exact to_hex_rgba_inrange _ _ _ a1 hx0 hx1 hy0 hy1 hz0 hz1 ha1

lemma rawBlack_eval : rawBlack =
    some ⟨"black", "black", mkHex8 0 0 0 255, mkHex6 255 255 255, [], [], []⟩ := by
  rw [rawBlack,
    set_color_concrete (mkRawColor "black") (ColorSpec.str "#000000") 0 0 0 255 (by norm_num)
      (by norm_num) (by norm_num) (by norm_num) (to_rgba_parse6 _ 0 0 0 rfl)]
  rfl

lemma rawWhite_eval : rawWhite =
    some ⟨"white", "white", mkHex8 255 255 255 255, mkHex6 0 0 0, [], [], []⟩ := by
  rw [rawWhite,
    set_color_concrete (mkRawColor "white") (ColorSpec.str "#FFFFFF") 255 255 255 255
      (by norm_num) (by norm_num) (by norm_num) (by norm_num) (to_rgba_parse6 _ 255 255 255 rfl)]
  rfl

lemma nodeX_eval : nodeX =
    some { mkBeamerColor "x" with
            fg := mkHex8 128 128 128 255,
            inverted_fg := mkHex6 127 127 127,
            parents_fg := ["\"black\":color", "\"white\":color"] } := by
  rw [nodeX, rawBlack_eval, Option.some_bind, rawWhite_eval, Option.some_bind,
    BeamerColor.inherit]
  rw [_blend_two_eval
    (ColorNode.raw ⟨"black", "black", mkHex8 0 0 0 255, mkHex6 255 255 255, [], [], []⟩)
    (ColorNode.raw ⟨"white", "white", mkHex8 255 255 255 255, mkHex6 0 0 0, [], [], []⟩)
    "raw-color" "raw-color" 50 50 0 0 0 255 255 255 255 255
    (by norm_num) (by norm_num) (by norm_num) (by norm_num) (by norm_num) (by norm_num)
    (by norm_num) (by norm_num) rfl rfl (by norm_num) (by norm_num) (by norm_num) (by norm_num)
    (by norm_num) (by norm_num)]
  rw [show (255 : ℚ) * ((0 : ℚ) + ((0 : ℕ) : ℚ) / 255 * 50 / 100 +
      ((255 : ℕ) : ℚ) / 255 * 50 / 100) = 255 / 2 from by norm_num, rnd_halfway,
    show ((128 : ℤ)).toNat = 128 from rfl]
  rw [Option.some_bind, foldl_append_fg, Option.some_bind, if_pos rfl]
  rw [_set_fg_concrete _ (mkHex8 128 128 128 255) 128 128 128 255 (by norm_num) (by norm_num)
    (by norm_num) (by norm_num)
    (to_rgba_mkHex8 128 128 128 255 (by norm_num) (by norm_num) (by norm_num) (by norm_num))]
  rfl

lemma nodeXFg_eval : nodeXFg = some "#808080ff" := by
  rw [nodeXFg, nodeX_eval, Option.some_bind]
  rfl

/-- Claim C2: blending two weighted components `(v1, w)` and
`(v2, 100 - w)` gives, for each RGB channel, the weighted sum
`v1.channel * (w/100) + v2.channel * ((100-w)/100)` expressed at the 256
discretization levels of the hex representation (channel byte =
round(255 * sum), round half to even), and the alpha byte is exactly the
alpha byte of the FIRST component - not a weighted alpha. -/
theorem blend_two_weighted_sum (n1 n2 : ColorNode) (c1 c2 : String)
    (r1 g1 b1 a1 r2 g2 b2 a2 : ℕ) (w : ℚ)
    (hr1 : r1 ≤ 255) (hg1 : g1 ≤ 255) (hb1 : b1 ≤ 255) (ha1 : a1 ≤ 255)
    (hr2 : r2 ≤ 255) (hg2 : g2 ≤ 255) (hb2 : b2 ≤ 255) (ha2 : a2 ≤ 255)
    (hw0 : 0 ≤ w) (hw1 : w ≤ 100)
    (h1 : ColorNode.get n1 c1 = some (mkHex8 r1 g1 b1 a1))
    (h2 : ColorNode.get n2 c2 = some (mkHex8 r2 g2 b2 a2)) :
    _blend [(n1, c1, some w), (n2, c2, some (100 - w))] =
      some (mkHex8
        (rnd (255 * ((r1 : ℚ) / 255 * (w / 100) + (r2 : ℚ) / 255 * ((100 - w) / 100)))).toNat
        (rnd (255 * ((g1 : ℚ) / 255 * (w / 100) + (g2 : ℚ) / 255 * ((100 - w) / 100)))).toNat
        (rnd (255 * ((b1 : ℚ) / 255 * (w / 100) + (b2 : ℚ) / 255 * ((100 - w) / 100)))).toNat
        a1) := by
  have hwa : 0 ≤ w / 100 := by linarith
  have hwb : 0 ≤ (100 - w) / 100 := by linarith
  have hst : w / 100 + (100 - w) / 100 = 1 := by ring
  have hR := convex_unit ((r1 : ℚ) / 255) ((r2 : ℚ) / 255) (w / 100) ((100 - w) / 100)
    (quant_nonneg r1) (quant_le_one r1 hr1) (quant_nonneg r2) (quant_le_one r2 hr2) hwa hwb hst
  have hG := convex_unit ((g1 : ℚ) / 255) ((g2 : ℚ) / 255) (w / 100) ((100 - w) / 100)
    (quant_nonneg g1) (quant_le_one g1 hg1) (quant_nonneg g2) (quant_le_one g2 hg2) hwa hwb hst
  have hB := convex_unit ((b1 : ℚ) / 255) ((b2 : ℚ) / 255) (w / 100) ((100 - w) / 100)
    (quant_nonneg b1) (quant_le_one b1 hb1) (quant_nonneg b2) (quant_le_one b2 hb2) hwa hwb hst
  have er : (0 : ℚ) + (r1 : ℚ) / 255 * w / 100 + (r2 : ℚ) / 255 * (100 - w) / 100 =
      (r1 : ℚ) / 255 * (w / 100) + (r2 : ℚ) / 255 * ((100 - w) / 100) := by ring
  have eg : (0 : ℚ) + (g1 : ℚ) / 255 * w / 100 + (g2 : ℚ) / 255 * (100 - w) / 100 =
      (g1 : ℚ) / 255 * (w / 100) + (g2 : ℚ) / 255 * ((100 - w) / 100) := by ring
  have eb : (0 : ℚ) + (b1 : ℚ) / 255 * w / 100 + (b2 : ℚ) / 255 * (100 - w) / 100 =
      (b1 : ℚ) / 255 * (w / 100) + (b2 : ℚ) / 255 * ((100 - w) / 100) := by ring
  have key := _blend_two_eval n1 n2 c1 c2 w (100 - w) r1 g1 b1 a1 r2 g2 b2 a2
    hr1 hg1 hb1 ha1 hr2 hg2 hb2 ha2 h1 h2
    (by rw [er]; exact hR.1) (by rw [er]; exact hR.2)
    (by rw [eg]; exact hG.1) (by rw [eg]; exact hG.2)
    (by rw [eb]; exact hB.1) (by rw [eb]; exact hB.2)
  rw [key, er, eg, eb]

/-- Witness for claim C2 at a concrete input: blending black (alpha ff)
and white (alpha ff) at 50/50 gives "#808080ff". -/
theorem blend_two_weighted_sum_witness :
    _blend [(ColorNode.raw ⟨"b", "b", mkHex8 0 0 0 255, "#ffffff", [], [], []⟩, "c1", some 50),
      (ColorNode.raw ⟨"w", "w", mkHex8 255 255 255 255, "#000000", [], [], []⟩, "c2",
        some (100 - 50))] = some "#808080ff" := by
  rw [blend_two_weighted_sum
    (ColorNode.raw ⟨"b", "b", mkHex8 0 0 0 255, "#ffffff", [], [], []⟩)
    (ColorNode.raw ⟨"w", "w", mkHex8 255 255 255 255, "#000000", [], [], []⟩) "c1" "c2"
    0 0 0 255 255 255 255 255 50 (by norm_num) (by norm_num) (by norm_num) (by norm_num)
    (by norm_num) (by norm_num) (by norm_num) (by norm_num) (by norm_num) (by norm_num) rfl rfl]
  rw [show (255 : ℚ) * (((0 : ℕ) : ℚ) / 255 * ((50 : ℚ) / 100) +
      ((255 : ℕ) : ℚ) / 255 * (((100 : ℚ) - 50) / 100)) = 255 / 2 from by norm_num, rnd_halfway]
  rfl

/-- Claim C3 counterexample: in the 50/50 black/white scenario the
resulting foreground hex is "#808080ff" (round half to even sends 127.5
to 128), not "#7F7F7FFF". -/
theorem blend_black_white_counterexample :
    nodeXFg = some "#808080ff" ∧ nodeXFg ≠ some "#7F7F7FFF" := by
  refine ⟨nodeXFg_eval, ?_⟩
  rw [nodeXFg_eval]
  decide

/-- Claim C3 (amended): blending raw black #000000 (stored with alpha ff)
and raw white #FFFFFF at 50/50 into the foreground of a derived node via
`inherit` yields the foreground hex "#808080ff" - mid-gray one
discretization step above 0x7f because 127.5 rounds half-to-even to 128 -
with the alpha taken from the first component (black, alpha ff). -/
theorem blend_black_white_foreground : nodeXFg = some "#808080ff" :=
  nodeXFg_eval

end BeamerHierarchy
